import Mathlib

/-!
Verification of the MathVizAI front-end (Trimpu/MathVizAI).

This file gives a shallow embedding of the state-bearing parts of the
repository:

* the API client `src/services/api.js` (`mathVideoAPI.generateVideo`,
  `mathVideoAPI.checkStatus`, `ocrAPI.extractContent`);
* the PDF page-preloading / progress state machine of
  `src/components/PdfViewer.jsx` (`preloadAllPages`,
  `handlePageLoadSuccess`, the `Page onLoadError` handler, the skip /
  cancel / timeout paths);
* the video-generation polling workflow (`handleVisualize`,
  `pollGenerationStatus`, `handleCancelGeneration`);
* the OCR extraction workflow (`performOcrExtraction`);
* the zoom controls (`zoomIn`, `zoomOut`).

React `useState` setters are modelled as functional updates on explicit
state records.  Calls to `fetch` and to the backend are modelled by
passing the outcome of the request as an explicit argument.  `setTimeout`
callbacks are modelled as separately applied steps (a scheduled callback
is recorded in the state and a dedicated function applies its body).
`Date.now()` and wall-clock values are threaded as explicit numeric
arguments.  JavaScript strings are modelled as Lean `String`s and
JavaScript numbers occurring in the claims as `Nat`/`ℚ` (all arithmetic
involved is exact at these magnitudes).
-/

namespace MathVizAI

/-! ### JavaScript primitives used by the source -/

/-- JS `a || d` for an optional string `a` (empty string is falsy). -/
def jsOrStr (o : Option String) (d : String) : String :=
  match o with
  | some s => if s = "" then d else s
  | none => d

/-- JS `a || d` for an optional number `a` (`0` is falsy). -/
def jsOrNat (o : Option Nat) (d : Nat) : Nat :=
  match o with
  | some n => if n = 0 then d else n
  | none => d

/-- JS truthiness of an optional string value (`undefined` and `""` are falsy). -/
def optTruthy (o : Option String) : Bool :=
  match o with
  | some s => s != ""
  | none => false

/-- JS truthiness of an optional number (`undefined` and `0` are falsy). -/
def natTruthy (o : Option Nat) : Bool :=
  match o with
  | some n => n != 0
  | none => false

/-- JS string coercion of a possibly-`undefined` string (`'' + undefined`). -/
def jsUndef (o : Option String) : String := o.getD "undefined"

/-- JS `String.prototype.endsWith`. -/
def jsEndsWith (s pat : String) : Bool := pat.data.isSuffixOf s.data

/-- JS `String.prototype.trim`: strip whitespace from both ends. -/
def jsTrim (s : String) : String :=
  (((s.data.dropWhile Char.isWhitespace).reverse.dropWhile
      Char.isWhitespace).reverse).asString

/-- JS `s.substring(0, 50) + (s.length > 50 ? '...' : '')` from
`pollGenerationStatus` (PdfViewer.jsx line 505). -/
def jsSubstring50 (s : String) : String :=
  (s.data.take 50).asString ++ (if 50 < s.data.length then "..." else "")

/-- JS `path.split('/').pop()`. -/
def lastComp (p : String) : String := (p.splitOn "/").getLastD ""

/-- Hex digit characters used by percent-encoding. -/
def hexDigit (n : Nat) : Char :=
  (List.getD ['0', '1', '2', '3', '4', '5', '6', '7', '8', '9',
              'A', 'B', 'C', 'D', 'E', 'F'] n '0')

/-- Percent-encoding of a single byte. -/
def percentByte (b : Nat) : List Char := ['%', hexDigit (b / 16), hexDigit (b % 16)]

/-- UTF-8 bytes of a Unicode code point. -/
def utf8Bytes (n : Nat) : List Nat :=
  if n < 128 then [n]
  else if n < 2048 then [192 + n / 64, 128 + n % 64]
  else if n < 65536 then [224 + n / 4096, 128 + (n / 64) % 64, 128 + n % 64]
  else [240 + n / 262144, 128 + (n / 4096) % 64, 128 + (n / 64) % 64, 128 + n % 64]

/-- Characters left unescaped by JS `encodeURIComponent`. -/
def isUriUnescaped (c : Char) : Bool :=
  c.isAlpha || c.isDigit ||
    c ∈ ['-', '_', '.', '!', '~', '*', Char.ofNat 39, '(', ')']

/-- JS `encodeURIComponent`. -/
def encodeURIComponent (s : String) : String :=
  ((s.data.map fun c =>
      if isUriUnescaped c then [c]
      else ((utf8Bytes c.toNat).map percentByte).flatten).flatten).asString

/-- `Math.round((s / n) * 100)` for naturals `s ≤ n`, `0 < n`
(`Math.round x = ⌊x + 1/2⌋` for nonnegative `x`). -/
def mathRound (s n : Nat) : Nat := (200 * s + n) / (2 * n)

/-- `(ms / 1000).toFixed(1)`: milliseconds rendered as seconds with one
decimal place (rounding ties up, as JS `toFixed` does). -/
def toFixed1 (ms : Nat) : String :=
  Nat.repr ((ms + 50) / 1000) ++ "." ++ Nat.repr (((ms + 50) / 100) % 10)

/-! ### The API client (`src/services/api.js`)

`fetch` is abstracted as an explicit `FetchOutcome` argument: either the
network request failed, or a response arrived with a given `ok` flag and
HTTP status, whose body either parses as JSON (of abstract type `α`) or
fails to parse. -/

/-- Outcome of a `fetch` call, with response body parsed as type `α`. -/
inductive FetchOutcome (α : Type) where
  | networkError
  | response (ok : Bool) (status : Nat) (body : Except Unit α)

/-- Errors thrown by the API client functions. -/
inductive ApiError where
  /-- the `fetch` promise rejected -/
  | network
  /-- `!response.ok`, carrying `response.status` -/
  | http (status : Nat)
  /-- `response.json()` rejected -/
  | parse
deriving DecidableEq

/-- Whether an API call result is a thrown error. -/
def throwsError {α : Type} : Except ApiError α → Bool
  | .error _ => true
  | .ok _ => false

/-- Characterization (for the claims) of a failing fetch: the request
rejected, the response was not ok, or the body failed to parse. -/
def fetchFails {α : Type} : FetchOutcome α → Bool
  | .networkError => true
  | .response ok _ body => !ok || (match body with | .error _ => true | .ok _ => false)

/-- `mathVideoAPI.generateVideo` (api.js lines 6-29): POSTs the selected
text, throws on `!response.ok`, otherwise returns the parsed JSON body;
the `catch` block logs and rethrows. -/
def generateVideo {α : Type} (selectedText : String) (quality : Option String)
    (o : FetchOutcome α) : Except ApiError α :=
  let _requestBody := (selectedText, jsOrStr quality "medium_quality")
  match o with
  | .networkError => .error .network
  | .response ok status body =>
    if !ok then .error (.http status)
    else match body with
      | .ok data => .ok data
      | .error _ => .error .parse

/-- `mathVideoAPI.checkStatus` (api.js lines 63-92): GETs
`/video-status/<taskId>`, throws on `!response.ok`, otherwise returns the
parsed JSON body; the `catch` block logs and rethrows. -/
def checkStatus {α : Type} (taskId : String) (o : FetchOutcome α) : Except ApiError α :=
  let _statusUrl := "http://localhost:5000/api/video-status/" ++ taskId
  match o with
  | .networkError => .error .network
  | .response ok status body =>
    if !ok then .error (.http status)
    else match body with
      | .ok data => .ok data
      | .error _ => .error .parse

/-- `ocrAPI.extractContent` (api.js lines 127-174): POSTs the image data,
throws on `!response.ok`, otherwise returns the parsed JSON body; the
`catch` block logs and rethrows. -/
def extractContent {α : Type} (imageData : String) (preprocessingLevel : String)
    (o : FetchOutcome α) : Except ApiError α :=
  let _requestBody := (imageData, preprocessingLevel)
  match o with
  | .networkError => .error .network
  | .response ok status body =>
    if !ok then .error (.http status)
    else match body with
      | .ok data => .ok data
      | .error _ => .error .parse

/-! ### Zoom controls (`PdfViewer.jsx` lines 332-338) -/

/-- `zoomIn`: `setScale(prevScale => Math.min(prevScale + 0.2, 3.0))`. -/
def zoomIn (s : ℚ) : ℚ := min (s + 0.2) 3.0

/-- `zoomOut`: `setScale(prevScale => Math.max(prevScale - 0.2, 0.5))`. -/
def zoomOut (s : ℚ) : ℚ := max (s - 0.2) 0.5

/-- A user zoom action. -/
inductive ZoomOp where
  | zin
  | zout
deriving DecidableEq

/-- Apply one zoom action to the scale. -/
def applyZoom (s : ℚ) : ZoomOp → ℚ
  | .zin => zoomIn s
  | .zout => zoomOut s

/-- The scale after a sequence of zoom actions from the initial scale `1.0`
(`useState(1.0)`, PdfViewer.jsx line 18). -/
def zoomRun (ops : List ZoomOp) : ℚ := ops.foldl applyZoom 1.0

/-! ### PDF page preloading (`PdfViewer.jsx` lines 146-330)

`loadedPages` is the JS `Set` of page numbers whose render succeeded (or
failed, see the `Page onLoadError` handler), modelled as a `Finset ℕ`.
`pageCache` is the JS `Map` from page number to cache entry, modelled as
an association list with JS `Map.set` semantics.  The `setTimeout`
callback queued by the completion branch of `handlePageLoadSuccess`
(lines 180-184) is recorded in `completionQueued` (carrying the captured
`loadTime`) and applied by `completeLoading`. -/

/-- One `pageCache` entry: `{ loaded, timestamp, renderTime }` (lines 194-198). -/
structure CacheEntry where
  loaded : Bool
  timestamp : Nat
  renderTime : Nat
deriving DecidableEq

/-- JS `Map.get`. -/
def mapGet {α : Type} (m : List (Nat × α)) (k : Nat) : Option α :=
  (m.find? (fun kv => kv.1 == k)).map (·.2)

/-- JS `Map.set`: update the existing binding in place or append a new one. -/
def mapSet {α : Type} (m : List (Nat × α)) (k : Nat) (v : α) : List (Nat × α) :=
  match m with
  | [] => [(k, v)]
  | kv :: rest => if kv.1 == k then (k, v) :: rest else kv :: mapSet rest k v

/-- `loadingStats` (line 149): `{ startTime, pagesLoaded, totalPages }`. -/
structure LoadStats where
  startTime : Option Nat
  pagesLoaded : Nat
  totalPages : Nat
deriving DecidableEq

/-- The PDF preloading component state. -/
structure LoadState where
  isLoadingPdf : Bool
  loadingProgress : Nat
  loadedPages : Finset Nat
  pageCache : List (Nat × CacheEntry)
  loadingMessage : String
  loadingStats : LoadStats
  /-- the 200 ms completion `setTimeout` queued at lines 180-184, carrying
  the `loadTime` captured by its closure -/
  completionQueued : Option Nat
deriving DecidableEq

/-- The per-notification loading message
`Rendering pages... ${size}/${numPages} (${progress}%)` (line 169). -/
def renderMsg (size n progress : Nat) : String :=
  "Rendering pages... " ++ Nat.repr size ++ "/" ++ Nat.repr n ++
    " (" ++ Nat.repr progress ++ "%)"

/-- The success-path completion message
`All pages ready! (${(loadTime/1000).toFixed(1)}s total)` (line 182). -/
def allReadyMsg (loadTime : Nat) : String :=
  "All pages ready! (" ++ toFixed1 loadTime ++ "s total)"

/-- `handlePageLoadSuccess` (lines 157-208).  `numPages` is the `numPages`
state, `startTime` the `pageLoadStartTime` ref, `now` the value of
`Date.now()` during this call. -/
def handlePageLoadSuccess (numPages : Option Nat) (startTime : Option Nat)
    (now : Nat) (st : LoadState) (pageNumber : Nat) : LoadState :=
  let newSet := insert pageNumber st.loadedPages
  let cache := mapSet st.pageCache pageNumber
    ⟨true, now, now - jsOrNat startTime now⟩
  let base := { st with loadedPages := newSet, pageCache := cache }
  if st.isLoadingPdf && natTruthy numPages then
    match numPages with
    | some n =>
      let progress := mathRound newSet.card n
      { base with
        loadingProgress := progress,
        loadingMessage := renderMsg newSet.card n progress,
        loadingStats := { st.loadingStats with pagesLoaded := newSet.card },
        completionQueued :=
          if newSet.card = n then some (now - jsOrNat startTime now)
          else st.completionQueued }
    | none => base
  else base

/-- The `Page onLoadError` handler (lines 1017-1020): logs the error and
invokes `handlePageLoadSuccess(pageNum)`. -/
def pageOnLoadError (numPages : Option Nat) (startTime : Option Nat)
    (now : Nat) (st : LoadState) (pageNumber : Nat) : LoadState :=
  handlePageLoadSuccess numPages startTime now st pageNumber

/-- Fire the 200 ms completion timeout queued by `handlePageLoadSuccess`
(lines 180-184): clear `isLoadingPdf` and show the all-pages-ready message. -/
def completeLoading (st : LoadState) : LoadState :=
  match st.completionQueued with
  | some loadTime =>
    { st with isLoadingPdf := false, loadingMessage := allReadyMsg loadTime,
              completionQueued := none }
  | none => st

/-- The synchronous part of `preloadAllPages` (lines 280-305), run before
the first `await`: reset the loading state and stats for a run over
`totalPages` pages starting at time `now`. -/
def initLoadState (totalPages now : Nat) : LoadState :=
  { isLoadingPdf := true
    loadingProgress := 0
    loadedPages := ∅
    pageCache := []
    loadingMessage := "Rendering " ++ Nat.repr totalPages ++ " pages..."
    loadingStats := ⟨some now, 0, totalPages⟩
    completionQueued := none }

/-- The `catch` branch of `preloadAllPages` (lines 318-329) when the
45-second timeout fired. -/
def preloadTimedOut (totalPages : Nat) (st : LoadState) : LoadState :=
  { st with isLoadingPdf := false,
            loadingMessage := "Loaded " ++ Nat.repr st.loadedPages.card ++ "/" ++
              Nat.repr totalPages ++ " pages. Others will load as needed." }

/-- The `catch` branch of `preloadAllPages` for any other preload error. -/
def preloadFailed (st : LoadState) : LoadState :=
  { st with isLoadingPdf := false,
            loadingMessage := "Loading error. Some pages may load slower." }

/-- The `Skip & View Now` button handler (lines 835-840). -/
def skipPreload (st : LoadState) : LoadState :=
  { st with isLoadingPdf := false,
            loadingMessage := "Preloading skipped. Pages will load as needed." }

/-- The loading-overlay `Cancel` button handler (lines 846-853), restricted
to the loading state (it also clears `file` and `numPages`). -/
def cancelPreload (st : LoadState) : LoadState :=
  { st with isLoadingPdf := false, loadingMessage := "",
            loadedPages := ∅ }

/-- One page-render notification `(pageNumber, now)` processed by
`handlePageLoadSuccess` during a run with `numPages = n`, start time `t0`. -/
def loadStep (n t0 : Nat) (st : LoadState) (e : Nat × Nat) : LoadState :=
  handlePageLoadSuccess (some n) (some t0) e.2 st e.1

/-- A preloading run: fold `handlePageLoadSuccess` over a sequence of
page-render notifications `(pageNumber, now)` from the state
`preloadAllPages` sets up, with `numPages = n` and start time `t0`. -/
def loadRun (n t0 : Nat) (l : List (Nat × Nat)) : LoadState :=
  l.foldl (loadStep n t0) (initLoadState n t0)

/-! ### Video-generation polling workflow (`PdfViewer.jsx` lines 459-550)

`pollGenerationStatus` awaits `mathVideoAPI.checkStatus` and branches on
the response; in the `generating` branch it reschedules itself with
`setTimeout(..., 2000)`.  The single scheduled invocation is modelled by
`pendingPoll : Option Nat` (carrying the scheduling delay in ms); the
ghost counter `checksIssued` counts the status checks actually sent.
The explanation fetch of the `.json` branch (lines 509-519) is modelled
by the explicit outcome argument `ex`. -/

/-- A parsed `/video-status` response body. -/
structure StatusResponse where
  status : String
  progress : Option Nat
  message : Option String
  video_url : Option String
  video_path : Option String
deriving DecidableEq

/-- A parsed explanation artifact (`{ explanation, topic }`, lines 513-514). -/
structure ExplanationData where
  explanation : String
  topic : String
deriving DecidableEq

/-- The video-generation/polling component state. -/
structure PollState where
  isGenerating : Bool
  generationProgress : Nat
  generationMessage : String
  currentTaskId : Option String
  showVideoPlayer : Bool
  currentVideoUrl : String
  currentVideoTitle : String
  showExplanationViewer : Bool
  currentExplanation : String
  currentExplanationTitle : String
  selectedText : String
  /-- the pending (immediate or `setTimeout`-scheduled) invocation of
  `pollGenerationStatus`, carrying its delay in milliseconds -/
  pendingPoll : Option Nat
  /-- ghost state: how many `checkStatus` requests have been issued -/
  checksIssued : Nat
  /-- ghost state: the `alert(...)` messages shown, in order -/
  alerts : List String
deriving DecidableEq

/-- The component's initial polling state (lines 31-44). -/
def initialPollState : PollState :=
  { isGenerating := false, generationProgress := 0, generationMessage := ""
    currentTaskId := none, showVideoPlayer := false, currentVideoUrl := ""
    currentVideoTitle := "", showExplanationViewer := false
    currentExplanation := "", currentExplanationTitle := "", selectedText := ""
    pendingPoll := none, checksIssued := 0, alerts := [] }

/-- The guard of the completed branch (line 496):
`status.status === 'completed' && (status.video_url || status.video_path)`. -/
def completedCond (r : StatusResponse) : Bool :=
  r.status == "completed" && (optTruthy r.video_url || optTruthy r.video_path)

/-- The video-file test (line 501): `(status.video_url &&
status.video_url.endsWith('.mp4')) || (status.video_path &&
status.video_path.endsWith('.mp4'))`. -/
def mp4Cond (r : StatusResponse) : Bool :=
  (match r.video_url with
   | some u => u != "" && jsEndsWith u ".mp4"
   | none => false) ||
  (match r.video_path with
   | some p => p != "" && jsEndsWith p ".mp4"
   | none => false)

/-- The explanation-file test (line 507):
`status.video_path && status.video_path.endsWith('.json')`. -/
def jsonCond (r : StatusResponse) : Bool :=
  match r.video_path with
  | some p => p != "" && jsEndsWith p ".json"
  | none => false

/-- The artifact URL path (lines 503 and 510): `status.video_url` if
truthy, else `/api/videos/` plus the encoded basename of `video_path`. -/
def pathPartOf (r : StatusResponse) : String :=
  if optTruthy r.video_url then r.video_url.getD ""
  else "/api/videos/" ++ encodeURIComponent (lastComp (r.video_path.getD ""))

/-- The body of `pollGenerationStatus` (lines 489-543) applied to a
received status response `r`; `ex` is the outcome of the explanation
fetch performed in the `.json` branch. -/
def pollStep (st : PollState) (r : StatusResponse) (ex : Except Unit ExplanationData) :
    PollState :=
  let st := { st with generationProgress := jsOrNat r.progress 0,
                      generationMessage := jsOrStr r.message "Processing..." }
  if completedCond r then
    let st := { st with isGenerating := false }
    let st :=
      if mp4Cond r then
        { st with currentVideoUrl := "http://localhost:5000" ++ pathPartOf r,
                  currentVideoTitle := jsSubstring50 st.selectedText,
                  showVideoPlayer := true }
      else if jsonCond r then
        match ex with
        | .ok e =>
          { st with currentExplanation := e.explanation,
                    currentExplanationTitle := e.topic,
                    showExplanationViewer := true }
        | .error _ => { st with alerts := st.alerts ++ ["Error loading explanation"] }
      else st
    { st with selectedText := "" }
  else if r.status == "failed" then
    { st with isGenerating := false,
              alerts := st.alerts ++ ["Generation failed: " ++ jsUndef r.message] }
  else if r.status == "generating" then
    { st with pendingPoll := some 2000 }
  else
    { st with isGenerating := false,
              alerts := st.alerts ++ ["Unknown error occurred during generation"] }

/-- `handleCancelGeneration` (lines 545-550). -/
def handleCancelGeneration (st : PollState) : PollState :=
  { st with isGenerating := false, currentTaskId := none,
            generationProgress := 0, generationMessage := "" }

/-- `handleVisualize` (lines 459-487); `outcome` is the result of the
`mathVideoAPI.generateVideo` call, carrying the returned `task_id`.  On
success the function invokes `pollGenerationStatus(task_id)` at once,
recorded as a pending poll with delay 0. -/
def handleVisualize (st : PollState) (outcome : Except Unit String) : PollState :=
  if jsTrim st.selectedText = "" then st
  else
    let st := { st with isGenerating := true, generationProgress := 0,
                        generationMessage := "Initializing video generation..." }
    match outcome with
    | .ok taskId =>
      { st with currentTaskId := some taskId, pendingPoll := some 0 }
    | .error _ =>
      { st with isGenerating := false,
                generationMessage := "Failed to start video generation",
                alerts := st.alerts ++
                  ["Failed to start video generation. Please make sure the backend is running."] }

/-- An event observable by the polling loop. -/
inductive PollEvent where
  /-- a pending poll fires: `checkStatus` resolves with response `r`;
  `ex` is the explanation-fetch outcome used in the `.json` branch -/
  | response (r : StatusResponse) (ex : Except Unit ExplanationData)
  /-- a pending poll fires and `checkStatus` throws (lines 538-542) -/
  | checkFailed
  /-- the user presses Cancel on the generation modal -/
  | cancel

/-- One step of the polling workflow.  A `response`/`checkFailed` event
consumes the pending poll (issuing one status check); `cancel` runs
`handleCancelGeneration`. -/
def pollEventStep (st : PollState) (e : PollEvent) : PollState :=
  match e with
  | .cancel => handleCancelGeneration st
  | .response r ex =>
    match st.pendingPoll with
    | some _ =>
      pollStep { st with pendingPoll := none, checksIssued := st.checksIssued + 1 } r ex
    | none => st
  | .checkFailed =>
    match st.pendingPoll with
    | some _ =>
      { st with pendingPoll := none, checksIssued := st.checksIssued + 1,
                isGenerating := false,
                alerts := st.alerts ++ ["Error checking generation status"] }
    | none => st

/-- Run the polling workflow over a sequence of events. -/
def pollRun (st : PollState) (es : List PollEvent) : PollState :=
  es.foldl pollEventStep st

/-! ### OCR extraction workflow (`PdfViewer.jsx` lines 578-749)

`performOcrExtraction` awaits `ocrAPI.extractContent`; the outcome is
passed as an explicit `Except String OcrResponse` argument (the `String`
carries the thrown error's `.message`).  `Date.now()` and
`new Date().toLocaleTimeString()` are the explicit arguments `now` /
`timeStr`, and the container's bounding rectangle (left, top) is the
argument `containerRect` (`none` models a null `containerRef.current`,
which the code replaces by `{left: 0, top: 0}`). -/

/-- A 2-D point (JS object `{x, y}`), coordinates as exact rationals. -/
structure Pt where
  x : ℚ
  y : ℚ
deriving DecidableEq

/-- A DOM-style rectangle `{x, y, width, height}`. -/
structure Rect where
  x : ℚ
  y : ℚ
  width : ℚ
  height : ℚ
deriving DecidableEq

/-- An element of the backend's `formulas` array: either a bare LaTeX
string or an object `{latex, confidence, type}`. -/
inductive FormulaV where
  | fstr (s : String)
  | fobj (latex : String) (confidence : Option ℚ) (ftype : Option String)
deriving DecidableEq

/-- A parsed `/extract-latex` response body. -/
structure OcrResponse where
  success : Bool
  error : Option String
  formulas : Option (List FormulaV)
  latex : Option String
  confidence : Option ℚ
  raw_result : Option String
deriving DecidableEq

/-- The selection payload handed to `performOcrExtraction`. -/
structure SelectionData where
  imageData : Option String
  coordinates : Rect
  selectionRect : Option Rect
deriving DecidableEq

/-- An inline OCR result object (lines 677-693). -/
structure OcrResult where
  id : String
  latexContent : String
  position : Pt
  viewportPosition : Pt
  coordinates : Rect
  selectionRect : Option Rect
  confidence : Option ℚ
  ftype : Option String
deriving DecidableEq

/-- The `error` state value `{message, suggestions}` set by the failure
branches. -/
structure ErrInfo where
  message : String
  suggestions : List String
deriving DecidableEq

/-- `latestOcrResult` (lines 700-705). -/
structure LatestOcr where
  latex : FormulaV
  timestamp : String
  confidence : Option ℚ
  rawResult : Option String
deriving DecidableEq

/-- The OCR-related component state. -/
structure OcrState where
  ocrMode : Bool
  ocrLoading : Bool
  ocrResults : List OcrResult
  error : Option ErrInfo
  latestOcrResult : Option LatestOcr
  showOcrPanel : Bool
  ocrPanelMinimized : Bool
deriving DecidableEq

/-- `results.formulas && results.formulas.length > 0` (line 633). -/
def hasFormulas (r : OcrResponse) : Bool :=
  match r.formulas with
  | some fs => decide (0 < fs.length)
  | none => false

/-- `results.latex && results.latex.trim().length > 0` (line 634). -/
def hasLatex (r : OcrResponse) : Bool :=
  match r.latex with
  | some l => decide (0 < (jsTrim l).length)
  | none => false

/-- `formulasArray` (line 651): the `formulas` array if nonempty,
otherwise the single `latex` string wrapped in an array. -/
def formulasArrayOf (r : OcrResponse) : List FormulaV :=
  if hasFormulas r then r.formulas.getD []
  else if hasLatex r then [.fstr (r.latex.getD "")] else []

/-- The JS zero rectangle `{x: 0, y: 0, width: 0, height: 0}`. -/
def zeroRect : Rect := ⟨0, 0, 0, 0⟩

/-- `centerX` (line 668): selection center mapped to container-relative
coordinates. -/
def centerXOf (containerRect : Option Pt) (sd : SelectionData) : ℚ :=
  let cr := containerRect.getD ⟨0, 0⟩
  let sel := sd.selectionRect.getD zeroRect
  (sel.x - cr.x) + sel.width / 2

/-- `centerY` (line 669). -/
def centerYOf (containerRect : Option Pt) (sd : SelectionData) : ℚ :=
  let cr := containerRect.getD ⟨0, 0⟩
  let sel := sd.selectionRect.getD zeroRect
  (sel.y - cr.y) + sel.height / 2

/-- The id string `` `ocr-${Date.now()}-${index}` `` (line 678). -/
def ocrId (now idx : Nat) : String :=
  "ocr-" ++ Nat.repr now ++ "-" ++ Nat.repr idx

/-- One element of `newOcrResults` (lines 677-693). -/
def mkOcrResult (now : Nat) (containerRect : Option Pt) (sd : SelectionData)
    (idx : Nat) (f : FormulaV) : OcrResult :=
  { id := ocrId now idx
    latexContent := match f with | .fstr s => s | .fobj l _ _ => l
    position := ⟨centerXOf containerRect sd + idx * 20,
                 centerYOf containerRect sd + idx * 20⟩
    viewportPosition :=
      (let sel := sd.selectionRect.getD zeroRect
       ⟨sel.x + sel.width / 2, sel.y + sel.height / 2⟩)
    coordinates := sd.coordinates
    selectionRect := sd.selectionRect
    confidence := match f with | .fobj _ c _ => c | .fstr _ => none
    ftype := match f with | .fobj _ _ t => t | .fstr _ => none }

/-- `newOcrResults` (lines 677-693): one result object per formula, with
indices from `formulasArray.map((formula, index) => ...)`. -/
def newOcrResultsOf (now : Nat) (containerRect : Option Pt) (sd : SelectionData)
    (fa : List FormulaV) : List OcrResult :=
  fa.enum.map fun p => mkOcrResult now containerRect sd p.1 p.2

/-- `performOcrExtraction` (lines 595-723).  `callResult` is the outcome
of the `ocrAPI.extractContent` request (`.error msg` models a thrown
exception with message `msg`). -/
def performOcrExtraction (now : Nat) (timeStr : String) (containerRect : Option Pt)
    (st : OcrState) (sd : SelectionData) (_preprocessingLevel : String)
    (callResult : Except String OcrResponse) : OcrState :=
  if !optTruthy sd.imageData then st
  else
    let st := { st with ocrMode := false, ocrLoading := true }
    match callResult with
    | .error msg =>
      { st with
        error := some ⟨"OCR Processing Error",
          [jsOrStr (some msg) "Failed to communicate with OCR service",
           "Check that the backend is running",
           "Try again with a different selection"]⟩,
        ocrLoading := false }
    | .ok results =>
      if !results.success then
        { st with
          error := some ⟨"OCR Extraction Failed",
            [jsOrStr results.error "Unknown error occurred",
             "Try selecting a clearer area",
             "Ensure the image contains mathematical content"]⟩,
          ocrLoading := false }
      else if !hasFormulas results && !hasLatex results then
        { st with
          error := some ⟨"No Mathematical Content Detected",
            ["The selected area may not contain clear mathematical notation",
             "Try selecting a different area with equations or formulas",
             "Ensure the image is not too blurry or small"]⟩,
          ocrLoading := false }
      else
        let fa := formulasArrayOf results
        if 0 < fa.length then
          { st with
            ocrResults := st.ocrResults ++ newOcrResultsOf now containerRect sd fa,
            latestOcrResult := some
              ⟨fa.headD (.fstr ""), timeStr, results.confidence, results.raw_result⟩,
            showOcrPanel := true,
            ocrPanelMinimized := false,
            ocrLoading := false }
        else { st with ocrLoading := false }

/-- `toggleOcrMode` (lines 582-593). -/
def toggleOcrMode (st : OcrState) : OcrState :=
  if st.ocrMode then { st with ocrMode := false, ocrResults := [] }
  else { st with ocrMode := true }

/-- `handleRemoveOcrButton` (lines 746-749). -/
def handleRemoveOcrButton (st : OcrState) (ocrId' : String) : OcrState :=
  { st with ocrResults := st.ocrResults.filter (fun r => r.id != ocrId') }

/-- The initial OCR state (lines 50-58). -/
def initialOcrState : OcrState :=
  { ocrMode := false, ocrLoading := false, ocrResults := [], error := none
    latestOcrResult := none, showOcrPanel := false, ocrPanelMinimized := false }

/-! ### Whole-component state and frame property

`PdfViewer` and the API client keep all of their state in React
`useState` hooks and refs; the browser's persistent facilities are
modelled explicitly as a `PersistentStore` component of the application
state, so that the frame property "no operation writes to persistent
storage" can be stated: no handler in the source touches
`localStorage`, `sessionStorage`, `document.cookie`, IndexedDB or the
file system, hence no transition of the model does. -/

/-- The browser's persistent storage facilities, as key-value stores. -/
structure PersistentStore where
  localStorage : List (String × String)
  sessionStorage : List (String × String)
  cookies : List (String × String)
  indexedDB : List (String × String)
  files : List (String × String)
deriving DecidableEq

/-- The full application state: the three embedded component-state groups,
the zoom scale, `numPages`, and the browser's persistent storage. -/
structure AppState where
  load : LoadState
  poll : PollState
  ocr : OcrState
  scale : ℚ
  numPages : Option Nat
  persistent : PersistentStore
deriving DecidableEq

/-- The events/operations of the embedded handlers. -/
inductive AppEvent where
  /-- `onDocumentLoadSuccess` (lines 101-125): set `numPages` and start
  `preloadAllPages` -/
  | docLoaded (n now : Nat)
  /-- a `Page onLoadSuccess` notification (line 1016) -/
  | pageLoaded (p now : Nat)
  /-- a `Page onLoadError` notification (lines 1017-1020) -/
  | pageLoadFailed (p now : Nat)
  /-- the completion `setTimeout` of `handlePageLoadSuccess` fires -/
  | completionTimer
  /-- the 45-second preload timeout fires -/
  | preloadTimeout
  /-- any other preload error is caught -/
  | preloadError
  /-- the `Skip & View Now` button (lines 835-840) -/
  | skip
  /-- the loading-overlay `Cancel` button (lines 846-853) -/
  | cancelLoading
  /-- `zoomIn` (lines 332-334) -/
  | zoomInEv
  /-- `zoomOut` (lines 336-338) -/
  | zoomOutEv
  /-- `handleVisualize` (lines 459-487) with the generate-video outcome -/
  | visualize (outcome : Except Unit String)
  /-- a pending poll fires with a status response (lines 489-543) -/
  | pollResponse (r : StatusResponse) (ex : Except Unit ExplanationData)
  /-- a pending poll fires and `checkStatus` throws -/
  | pollCheckFailed
  /-- `handleCancelGeneration` (lines 545-550) -/
  | cancelGeneration
  /-- `toggleOcrMode` (lines 582-593) -/
  | toggleOcr
  /-- `performOcrExtraction` (lines 595-723) with its request outcome -/
  | ocrExtract (now : Nat) (timeStr : String) (containerRect : Option Pt)
      (sd : SelectionData) (lvl : String) (res : Except String OcrResponse)
  /-- `handleRemoveOcrButton` (lines 746-749) -/
  | removeOcr (id : String)

/-- Dispatch one event to the corresponding embedded handler. -/
def appStep (st : AppState) (e : AppEvent) : AppState :=
  match e with
  | .docLoaded n now => { st with numPages := some n, load := initLoadState n now }
  | .pageLoaded p now =>
    { st with load :=
        handlePageLoadSuccess st.numPages st.load.loadingStats.startTime now st.load p }
  | .pageLoadFailed p now =>
    { st with load :=
        pageOnLoadError st.numPages st.load.loadingStats.startTime now st.load p }
  | .completionTimer => { st with load := completeLoading st.load }
  | .preloadTimeout =>
    { st with load := preloadTimedOut st.load.loadingStats.totalPages st.load }
  | .preloadError => { st with load := preloadFailed st.load }
  | .skip => { st with load := skipPreload st.load }
  | .cancelLoading => { st with load := cancelPreload st.load, numPages := some 0 }
  | .zoomInEv => { st with scale := zoomIn st.scale }
  | .zoomOutEv => { st with scale := zoomOut st.scale }
  | .visualize outcome => { st with poll := handleVisualize st.poll outcome }
  | .pollResponse r ex => { st with poll := pollEventStep st.poll (.response r ex) }
  | .pollCheckFailed => { st with poll := pollEventStep st.poll .checkFailed }
  | .cancelGeneration => { st with poll := handleCancelGeneration st.poll }
  | .toggleOcr => { st with ocr := toggleOcrMode st.ocr }
  | .ocrExtract now timeStr cr sd lvl res =>
    { st with ocr := performOcrExtraction now timeStr cr st.ocr sd lvl res }
  | .removeOcr i => { st with ocr := handleRemoveOcrButton st.ocr i }

/-- The component's mount state (the `useState` initial values), over an
arbitrary ambient persistent store `p`. -/
def initialAppState (p : PersistentStore) : AppState :=
  { load := { isLoadingPdf := false, loadingProgress := 0, loadedPages := ∅,
              pageCache := [], loadingMessage := "",
              loadingStats := ⟨none, 0, 0⟩, completionQueued := none }
    poll := initialPollState
    ocr := initialOcrState
    scale := 1.0
    numPages := none
    persistent := p }

/-- Characterization (for claim C7) of a failed OCR extraction: the
request threw, the backend reported `success: false`, or it returned
neither formulas nor non-empty latex. -/
def ocrFailed (res : Except String OcrResponse) : Bool :=
  match res with
  | .error _ => true
  | .ok r => !r.success || (!hasFormulas r && !hasLatex r)

/-! ### Concrete instances used by counterexamples and witnesses -/

/-- A selection payload with captured image data. -/
def sdEx : SelectionData :=
  ⟨some "data:image/png;base64,AAAA", ⟨0, 0, 10, 10⟩, some ⟨5, 5, 20, 10⟩⟩

/-- A failing OCR response (`success: false`). -/
def ocrFailRespEx : OcrResponse :=
  ⟨false, some "OCR engine unavailable", none, none, none, none⟩

/-- A successful OCR response with two formulas. -/
def ocrOkRespEx : OcrResponse :=
  ⟨true, none, some [.fstr "x^2", .fobj "y+1" (some (9/10)) (some "equation")],
   none, some (9/10), some "raw"⟩

/-- A `generating` status response. -/
def genRespEx : StatusResponse :=
  ⟨"generating", some 40, some "Rendering animation", none, none⟩

/-- A `completed` status response carrying an `.mp4` video URL. -/
def doneRespEx : StatusResponse :=
  ⟨"completed", some 100, some "Done", some "/api/videos/out.mp4", none⟩

/-- A `completed` status response whose `video_url` ends in `.json` and
whose `video_path` is absent. -/
def jsonUrlRespEx : StatusResponse :=
  ⟨"completed", some 100, some "Done", some "/api/videos/out.json", none⟩

/-- The polling state right after a successful `handleVisualize` call:
generation started for task `task-1`, one poll pending. -/
def startedPollState : PollState :=
  handleVisualize { initialPollState with selectedText := "solve x" } (.ok "task-1")

/-! ## Theorems -/

/-! ### Zoom bounds (C10) -/

/-- One zoom action keeps the scale in `[0.5, 3.0]`. -/
theorem applyZoom_bounds (s : ℚ) (h1 : (0.5 : ℚ) ≤ s) (h2 : s ≤ (3.0 : ℚ))
    (op : ZoomOp) :
    (0.5 : ℚ) ≤ applyZoom s op ∧ applyZoom s op ≤ (3.0 : ℚ) := by
  cases op with
  | zin => exact ⟨le_min (by linarith) (by norm_num), min_le_right _ _⟩
  | zout => exact ⟨le_max_right _ _, max_le (by linarith) (by norm_num)⟩

/-- Folding zoom actions preserves the scale bounds. -/
theorem foldl_applyZoom_bounds (ops : List ZoomOp) :
    ∀ s : ℚ, (0.5 : ℚ) ≤ s → s ≤ (3.0 : ℚ) →
      (0.5 : ℚ) ≤ ops.foldl applyZoom s ∧ ops.foldl applyZoom s ≤ (3.0 : ℚ) := by
  induction ops with
  | nil => intro s h1 h2; simpa using ⟨h1, h2⟩
  | cons op rest ih =>
    intro s h1 h2
    simp only [List.foldl_cons]
    exact ih _ (applyZoom_bounds s h1 h2 op).1 (applyZoom_bounds s h1 h2 op).2

/-- C10: for every finite sequence of `zoomIn`/`zoomOut` operations
starting from the initial scale `1.0`, the scale stays within
`[0.5, 3.0]`; moreover `zoomIn` maps `s` to `min (s + 0.2) 3.0` and
`zoomOut` maps `s` to `max (s - 0.2) 0.5`. -/
theorem zoom_scale_bounded (ops : List ZoomOp) :
    ((0.5 : ℚ) ≤ zoomRun ops ∧ zoomRun ops ≤ (3.0 : ℚ)) ∧
    (∀ s : ℚ, zoomIn s = min (s + 0.2) 3.0 ∧ zoomOut s = max (s - 0.2) 0.5) :=
  ⟨foldl_applyZoom_bounds ops 1.0 (by norm_num) (by norm_num),
   fun _ => ⟨rfl, rfl⟩⟩

/-! ### API client error behaviour (C6) -/

/-- C6: `mathVideoAPI.generateVideo`, `mathVideoAPI.checkStatus` and
`ocrAPI.extractContent` each throw exactly when the fetch fails (the
request rejects or the body fails to parse as JSON) or the HTTP response
is not ok; otherwise they return the parsed JSON body unchanged. -/
theorem api_throws_iff {α : Type} (text q tid img lvl : String) (o : FetchOutcome α) :
    (throwsError (generateVideo text (some q) o) = fetchFails o ∧
     throwsError (checkStatus tid o) = fetchFails o ∧
     throwsError (extractContent img lvl o) = fetchFails o) ∧
    (∀ (s : Nat) (d : α), o = .response true s (.ok d) →
       generateVideo text (some q) o = .ok d ∧
       checkStatus tid o = .ok d ∧
       extractContent img lvl o = .ok d) := by
  constructor
  · cases o with
    | networkError => exact ⟨rfl, rfl, rfl⟩
    | response ok status body =>
      cases ok <;> cases body <;>
        simp [generateVideo, checkStatus, extractContent, throwsError, fetchFails]
  · rintro s d rfl
    exact ⟨rfl, rfl, rfl⟩

/-- Witness for C6 at a concrete successful fetch. -/
theorem api_throws_iff_witness :
    generateVideo "t" (some "medium") (.response true 200 (.ok (7 : Nat))) = .ok 7 ∧
    checkStatus "id1" (.response true 200 (.ok (7 : Nat))) = .ok 7 ∧
    extractContent "img" "moderate" (.response true 200 (.ok (7 : Nat))) = .ok 7 :=
  (api_throws_iff "t" "medium" "id1" "img" "moderate"
    (.response true 200 (.ok (7 : Nat)))).2 200 7 rfl

/-! ### Failed pages recorded like successes (C5) -/

/-- JS `Map.get` after `Map.set` at the same key. -/
theorem mapGet_mapSet {α : Type} (m : List (Nat × α)) (k : Nat) (v : α) :
    mapGet (mapSet m k v) k = some v := by
  induction m with
  | nil => simp [mapGet, mapSet, List.find?]
  | cons kv rest ih =>
    by_cases h : kv.1 = k
    · simp [mapSet, h, mapGet, List.find?]
    · simpa [mapSet, h, mapGet, List.find?] using ih

/-- `handlePageLoadSuccess` always inserts the page into `loadedPages`. -/
theorem hpls_loadedPages (np ts : Option Nat) (now : Nat) (st : LoadState) (p : Nat) :
    (handlePageLoadSuccess np ts now st p).loadedPages = insert p st.loadedPages := by
  unfold handlePageLoadSuccess
  split
  · cases np <;> rfl
  · rfl

/-- `handlePageLoadSuccess` always caches the page as loaded. -/
theorem hpls_pageCache (np ts : Option Nat) (now : Nat) (st : LoadState) (p : Nat) :
    (handlePageLoadSuccess np ts now st p).pageCache =
      mapSet st.pageCache p ⟨true, now, now - jsOrNat ts now⟩ := by
  unfold handlePageLoadSuccess
  split
  · cases np <;> rfl
  · rfl

/-- `handlePageLoadSuccess` never changes `isLoadingPdf` (completion goes
through the queued timeout). -/
theorem hpls_isLoadingPdf (np ts : Option Nat) (now : Nat) (st : LoadState) (p : Nat) :
    (handlePageLoadSuccess np ts now st p).isLoadingPdf = st.isLoadingPdf := by
  unfold handlePageLoadSuccess
  split
  · cases np <;> rfl
  · rfl

/-- In loading mode the handler recomputes the progress percentage. -/
theorem hpls_progress (ts : Option Nat) (now : Nat) (st : LoadState) (p n : Nat)
    (hld : st.isLoadingPdf = true) (hn : n ≠ 0) :
    (handlePageLoadSuccess (some n) ts now st p).loadingProgress =
      mathRound (insert p st.loadedPages).card n := by
  have ht : natTruthy (some n) = true := by simp [natTruthy, hn]
  unfold handlePageLoadSuccess
  simp [hld, ht]

/-- In loading mode the handler sets the rendering message. -/
theorem hpls_message (ts : Option Nat) (now : Nat) (st : LoadState) (p n : Nat)
    (hld : st.isLoadingPdf = true) (hn : n ≠ 0) :
    (handlePageLoadSuccess (some n) ts now st p).loadingMessage =
      renderMsg (insert p st.loadedPages).card n
        (mathRound (insert p st.loadedPages).card n) := by
  have ht : natTruthy (some n) = true := by simp [natTruthy, hn]
  unfold handlePageLoadSuccess
  simp [hld, ht]

/-- In loading mode the handler queues the completion timeout exactly when
the loaded-set reaches `n` (and otherwise leaves the queue as it was). -/
theorem hpls_queued (ts : Option Nat) (now : Nat) (st : LoadState) (p n : Nat)
    (hld : st.isLoadingPdf = true) (hn : n ≠ 0) :
    (handlePageLoadSuccess (some n) ts now st p).completionQueued =
      (if (insert p st.loadedPages).card = n then some (now - jsOrNat ts now)
       else st.completionQueued) := by
  have ht : natTruthy (some n) = true := by simp [natTruthy, hn]
  unfold handlePageLoadSuccess
  simp [hld, ht]

/-- C5: the `Page onLoadError` handler records a failed page exactly like
a successful one: it is literally a call to `handlePageLoadSuccess`, so
the page joins `loadedPages`, is cached with `loaded := true`, the
progress is recomputed over the enlarged set, and the page counts toward
the completion condition. -/
theorem pageError_recorded_as_success (np ts : Option Nat) (now : Nat)
    (st : LoadState) (p : Nat) :
    pageOnLoadError np ts now st p = handlePageLoadSuccess np ts now st p ∧
    (pageOnLoadError np ts now st p).loadedPages = insert p st.loadedPages ∧
    p ∈ (pageOnLoadError np ts now st p).loadedPages ∧
    mapGet (pageOnLoadError np ts now st p).pageCache p =
      some ⟨true, now, now - jsOrNat ts now⟩ ∧
    (∀ n : Nat, np = some n → st.isLoadingPdf = true → n ≠ 0 →
       (pageOnLoadError np ts now st p).loadingProgress =
         mathRound (insert p st.loadedPages).card n) := by
  refine ⟨rfl, hpls_loadedPages np ts now st p, ?_, ?_, ?_⟩
  · rw [pageOnLoadError, hpls_loadedPages]
    exact Finset.mem_insert_self p st.loadedPages
  · rw [pageOnLoadError, hpls_pageCache]
    exact mapGet_mapSet st.pageCache p _
  · rintro n rfl hld hn
    exact hpls_progress ts now st p n hld hn

/-- Witness for C5 at a concrete failed page. -/
theorem pageError_recorded_as_success_witness :
    pageOnLoadError (some 2) (some 0) 1 (initLoadState 2 0) 1 =
      handlePageLoadSuccess (some 2) (some 0) 1 (initLoadState 2 0) 1 ∧
    (pageOnLoadError (some 2) (some 0) 1 (initLoadState 2 0) 1).loadingProgress =
      mathRound (insert 1 (initLoadState 2 0).loadedPages).card 2 := by
  have h := pageError_recorded_as_success (some 2) (some 0) 1 (initLoadState 2 0) 1
  exact ⟨h.1, h.2.2.2.2 2 rfl rfl (by decide)⟩

/-! ### Progress tracking and completion of the preloading run (C3, C4) -/

/-- `Math.round(100 * 0 / n) = 0`. -/
theorem mathRound_zero (n : Nat) : mathRound 0 n = 0 := by
  rcases Nat.eq_zero_or_pos n with h | h
  · subst h; rfl
  · unfold mathRound
    rw [Nat.mul_zero, Nat.zero_add]
    exact Nat.div_eq_of_lt (by omega)

/-- `Math.round(100 * s / n)` is monotone in `s`. -/
theorem mathRound_mono (n : Nat) {s1 s2 : Nat} (h : s1 ≤ s2) :
    mathRound s1 n ≤ mathRound s2 n :=
  Nat.div_le_div_right (by omega)

/-- `Math.round(100 * s / n) ≤ 100` whenever `s ≤ n`, `1 ≤ n`. -/
theorem mathRound_le_100 (s n : Nat) (h1 : s ≤ n) (hn : 1 ≤ n) :
    mathRound s n ≤ 100 := by
  unfold mathRound
  calc (200 * s + n) / (2 * n) ≤ (n + 2 * n * 100) / (2 * n) :=
        Nat.div_le_div_right (by omega)
    _ = n / (2 * n) + 100 := Nat.add_mul_div_left n 100 (by omega)
    _ = 100 := by rw [Nat.div_eq_of_lt (by omega)]

/-- A set of pages within `[1, n]` has at most `n` elements. -/
theorem card_le_of_subset_Icc {n : Nat} {s : Finset Nat}
    (h : s ⊆ Finset.Icc 1 n) : s.card ≤ n := by
  have := Finset.card_le_card h
  simpa using this

/-- The loading-run invariant is preserved by folding render notifications:
loading stays active, the loaded set stays within `[1, n]`, the progress
always equals the rounded percentage, the completion timeout is queued
exactly when all `n` pages are in, and the loaded set accumulates the
notified page numbers. -/
theorem loadFold_inv (n t0 : Nat) (hn : 1 ≤ n) :
    ∀ (l : List (Nat × Nat)) (st : LoadState),
      (∀ e ∈ l, 1 ≤ e.1 ∧ e.1 ≤ n) →
      st.isLoadingPdf = true →
      st.loadedPages ⊆ Finset.Icc 1 n →
      st.loadingProgress = mathRound st.loadedPages.card n →
      (st.completionQueued.isSome ↔ st.loadedPages.card = n) →
      (l.foldl (loadStep n t0) st).isLoadingPdf = true ∧
      (l.foldl (loadStep n t0) st).loadedPages ⊆ Finset.Icc 1 n ∧
      (l.foldl (loadStep n t0) st).loadingProgress =
        mathRound (l.foldl (loadStep n t0) st).loadedPages.card n ∧
      ((l.foldl (loadStep n t0) st).completionQueued.isSome ↔
        (l.foldl (loadStep n t0) st).loadedPages.card = n) ∧
      (l.foldl (loadStep n t0) st).loadedPages =
        st.loadedPages ∪ (l.map Prod.fst).toFinset := by
  intro l
  induction l with
  | nil =>
    intro st _ h1 h2 h3 h4
    simpa using ⟨h1, h2, h3, h4⟩
  | cons e rest ih =>
    intro st hl hld hsub hprog hq
    have hn0 : n ≠ 0 := by omega
    have he := hl e (by simp)
    have hpages : (loadStep n t0 st e).loadedPages = insert e.1 st.loadedPages :=
      hpls_loadedPages _ _ _ _ _
    have hld' : (loadStep n t0 st e).isLoadingPdf = true := by
      rw [loadStep, hpls_isLoadingPdf]; exact hld
    have hsub' : (loadStep n t0 st e).loadedPages ⊆ Finset.Icc 1 n := by
      rw [hpages]
      intro x hx
      rcases Finset.mem_insert.mp hx with h | h
      · subst h; exact Finset.mem_Icc.mpr ⟨he.1, he.2⟩
      · exact hsub h
    have hprog' : (loadStep n t0 st e).loadingProgress =
        mathRound (loadStep n t0 st e).loadedPages.card n := by
      rw [loadStep, hpls_progress _ _ _ _ _ hld hn0, ← hpages, loadStep]
    have hcard_le : (insert e.1 st.loadedPages).card ≤ n := by
      apply card_le_of_subset_Icc
      rw [← hpages]; exact hsub'
    have hq' : (loadStep n t0 st e).completionQueued.isSome ↔
        (loadStep n t0 st e).loadedPages.card = n := by
      rw [hpages, loadStep, hpls_queued _ _ _ _ _ hld hn0]
      by_cases hc : (insert e.1 st.loadedPages).card = n
      · simp [hc]
      · simp only [hc, if_false, iff_false]
        intro habs
        have hcard : st.loadedPages.card = n := hq.mp habs
        have : n ≤ (insert e.1 st.loadedPages).card := by
          rw [← hcard]
          exact Finset.card_le_card (Finset.subset_insert _ _)
        omega
    have hrest := ih (loadStep n t0 st e) (fun x hx => hl x (by simp [hx]))
      hld' hsub' hprog' hq'
    refine ⟨hrest.1, hrest.2.1, hrest.2.2.1, hrest.2.2.2.1, ?_⟩
    rw [List.foldl_cons] at *
    rw [hrest.2.2.2.2, hpages, List.map_cons, List.toFinset_cons,
      Finset.insert_union, Finset.union_insert]

/-- The invariant holds for a complete run from `preloadAllPages`'s state. -/
theorem loadRun_inv (n t0 : Nat) (hn : 1 ≤ n) (l : List (Nat × Nat))
    (hl : ∀ e ∈ l, 1 ≤ e.1 ∧ e.1 ≤ n) :
    (loadRun n t0 l).isLoadingPdf = true ∧
    (loadRun n t0 l).loadedPages ⊆ Finset.Icc 1 n ∧
    (loadRun n t0 l).loadingProgress =
      mathRound (loadRun n t0 l).loadedPages.card n ∧
    ((loadRun n t0 l).completionQueued.isSome ↔
      (loadRun n t0 l).loadedPages.card = n) ∧
    (loadRun n t0 l).loadedPages = (l.map Prod.fst).toFinset := by
  have h := loadFold_inv n t0 hn l (initLoadState n t0) hl rfl
    (by simp [initLoadState])
    (by simp [initLoadState, mathRound_zero])
    (by simp [initLoadState]; omega)
  refine ⟨h.1, h.2.1, h.2.2.1, h.2.2.2.1, ?_⟩
  rw [loadRun] at *
  rw [h.2.2.2.2]
  simp [initLoadState]

/-- C3: during a preloading run, after every page-render notification the
loading progress equals `Math.round(100 * |loadedPages| / numPages)`, the
progress stays in `[0, 100]` (it is a `Nat`, hence `≥ 0`) and is
non-decreasing from one notification to the next, and the loading message
reports the matching count of loaded pages out of `numPages`. -/
theorem progress_tracking (n t0 : Nat) (hn : 1 ≤ n) (l : List (Nat × Nat))
    (hl : ∀ e ∈ l, 1 ≤ e.1 ∧ e.1 ≤ n) (k : Nat) (hk : k < l.length) :
    (loadRun n t0 (l.take (k+1))).loadingProgress =
      mathRound (loadRun n t0 (l.take (k+1))).loadedPages.card n ∧
    (loadRun n t0 (l.take (k+1))).loadingProgress ≤ 100 ∧
    (loadRun n t0 (l.take k)).loadingProgress ≤
      (loadRun n t0 (l.take (k+1))).loadingProgress ∧
    (loadRun n t0 (l.take (k+1))).loadingMessage =
      renderMsg (loadRun n t0 (l.take (k+1))).loadedPages.card n
        (loadRun n t0 (l.take (k+1))).loadingProgress := by
  have hn0 : n ≠ 0 := by omega
  have hltake : ∀ e ∈ l.take k, 1 ≤ e.1 ∧ e.1 ≤ n :=
    fun e he => hl e (List.take_subset k l he)
  have hltake' : ∀ e ∈ l.take (k+1), 1 ≤ e.1 ∧ e.1 ≤ n :=
    fun e he => hl e (List.take_subset (k+1) l he)
  have hsplit : l.take (k+1) = l.take k ++ [l[k]] := by
    rw [List.take_succ, List.getElem?_eq_getElem hk]
    rfl
  have hstep : loadRun n t0 (l.take (k+1)) =
      loadStep n t0 (loadRun n t0 (l.take k)) l[k] := by
    rw [loadRun, loadRun, hsplit, List.foldl_append]
    rfl
  have hk_inv := loadRun_inv n t0 hn (l.take k) hltake
  have hk1_inv := loadRun_inv n t0 hn (l.take (k+1)) hltake'
  refine ⟨hk1_inv.2.2.1, ?_, ?_, ?_⟩
  · rw [hk1_inv.2.2.1]
    exact mathRound_le_100 _ n (card_le_of_subset_Icc hk1_inv.2.1) hn
  · rw [hk_inv.2.2.1, hk1_inv.2.2.1]
    apply mathRound_mono
    apply Finset.card_le_card
    rw [hstep, loadStep, hpls_loadedPages]
    exact Finset.subset_insert _ _
  · rw [hstep, loadStep,
      hpls_message _ _ _ _ _ hk_inv.1 hn0,
      hpls_progress _ _ _ _ _ hk_inv.1 hn0,
      hpls_loadedPages]

/-- Witness for C3 on a two-page run. -/
theorem progress_tracking_witness :
    (loadRun 2 0 ([(1, 1), (2, 3)].take 2)).loadingProgress =
      mathRound (loadRun 2 0 ([(1, 1), (2, 3)].take 2)).loadedPages.card 2 ∧
    (loadRun 2 0 ([(1, 1), (2, 3)].take 2)).loadingProgress ≤ 100 ∧
    (loadRun 2 0 ([(1, 1), (2, 3)].take 1)).loadingProgress ≤
      (loadRun 2 0 ([(1, 1), (2, 3)].take 2)).loadingProgress ∧
    (loadRun 2 0 ([(1, 1), (2, 3)].take 2)).loadingMessage =
      renderMsg (loadRun 2 0 ([(1, 1), (2, 3)].take 2)).loadedPages.card 2
        (loadRun 2 0 ([(1, 1), (2, 3)].take 2)).loadingProgress :=
  progress_tracking 2 0 (by decide) [(1, 1), (2, 3)] (by decide) 1 (by decide)

/-- C4: absent the 45-second timeout, a preload error, and the Skip and
Cancel buttons, a preloading run keeps `isLoadingPdf` active, and the
success-path completion (the queued timeout that clears `isLoadingPdf`
and shows the all-pages-ready message) is triggered exactly when the set
of distinct notified pages reaches size `numPages`. -/
theorem preload_completion (n t0 : Nat) (hn : 1 ≤ n) (l : List (Nat × Nat))
    (hl : ∀ e ∈ l, 1 ≤ e.1 ∧ e.1 ≤ n) :
    (loadRun n t0 l).loadedPages = (l.map Prod.fst).toFinset ∧
    (loadRun n t0 l).isLoadingPdf = true ∧
    ((loadRun n t0 l).completionQueued.isSome ↔
      (l.map Prod.fst).toFinset.card = n) ∧
    ((l.map Prod.fst).toFinset.card = n →
      (completeLoading (loadRun n t0 l)).isLoadingPdf = false ∧
      ∃ t, (completeLoading (loadRun n t0 l)).loadingMessage = allReadyMsg t) ∧
    ((l.map Prod.fst).toFinset.card ≠ n →
      completeLoading (loadRun n t0 l) = loadRun n t0 l) := by
  have h := loadRun_inv n t0 hn l hl
  have hset := h.2.2.2.2
  refine ⟨hset, h.1, by rw [← hset]; exact h.2.2.2.1, ?_, ?_⟩
  · intro hc
    have : (loadRun n t0 l).completionQueued.isSome := by
      rw [← hset] at hc
      exact h.2.2.2.1.mpr hc
    obtain ⟨t, ht⟩ := Option.isSome_iff_exists.mp this
    rw [completeLoading, ht]
    exact ⟨rfl, t, rfl⟩
  · intro hc
    have : ¬ (loadRun n t0 l).completionQueued.isSome := by
      rw [← hset] at hc
      exact fun habs => hc (h.2.2.2.1.mp habs)
    have hnone : (loadRun n t0 l).completionQueued = none :=
      Option.not_isSome_iff_eq_none.mp this
    rw [completeLoading, hnone]

/-- Witness for C4 on a completed single-page run. -/
theorem preload_completion_witness :
    (loadRun 1 0 [(1, 5)]).loadedPages = ([(1, 5)].map Prod.fst).toFinset ∧
    (loadRun 1 0 [(1, 5)]).isLoadingPdf = true ∧
    ((completeLoading (loadRun 1 0 [(1, 5)])).isLoadingPdf = false ∧
      ∃ t, (completeLoading (loadRun 1 0 [(1, 5)])).loadingMessage = allReadyMsg t) := by
  have h := preload_completion 1 0 (by decide) [(1, 5)] (by decide)
  exact ⟨h.1, h.2.1, h.2.2.2.1 (by decide)⟩

/-! ### Cancellation of the polling workflow (C1) -/

/-- C1 counterexample: starting from a freshly started generation
(`startedPollState`, one poll pending), the trace
`generating response; user cancels; completed response` issues a second
status check after the cancellation and sets `showVideoPlayer := true`:
cancelling does not stop the polling loop. -/
theorem cancel_does_not_stop_polling_cex :
    (pollRun startedPollState [.response genRespEx (.error ())]).pendingPoll =
      some 2000 ∧
    (pollRun startedPollState
      [.response genRespEx (.error ()), .cancel]).checksIssued = 1 ∧
    (pollRun startedPollState
      [.response genRespEx (.error ()), .cancel,
       .response doneRespEx (.error ())]).checksIssued = 2 ∧
    (pollRun startedPollState
      [.response genRespEx (.error ()), .cancel,
       .response doneRespEx (.error ())]).showVideoPlayer = true := by
  decide

/-- C1 amended: `handleCancelGeneration` only resets the generation UI
state (`isGenerating`, `currentTaskId`, `generationProgress`,
`generationMessage`); it leaves any pending poll scheduled, so later
status checks and artifact display are not prevented. -/
theorem cancel_resets_ui_only (st : PollState) :
    handleCancelGeneration st =
      { st with isGenerating := false, currentTaskId := none,
                generationProgress := 0, generationMessage := "" } ∧
    (handleCancelGeneration st).pendingPoll = st.pendingPoll ∧
    (handleCancelGeneration st).showVideoPlayer = st.showVideoPlayer ∧
    (handleCancelGeneration st).showExplanationViewer = st.showExplanationViewer ∧
    (handleCancelGeneration st).checksIssued = st.checksIssued :=
  ⟨rfl, rfl, rfl, rfl, rfl⟩

/-! ### Poll-response case analysis (C2) -/

/-- C2 counterexample: a `completed` response whose artifact path
(`video_url = "/api/videos/out.json"`) ends in `.json` but whose
`video_path` is absent stops polling and clears `isGenerating`, yet
displays neither the explanation viewer nor the video player — the
explanation branch tests only `video_path`. -/
theorem completed_json_url_displays_nothing_cex :
    (pollEventStep startedPollState
      (.response jsonUrlRespEx (.ok ⟨"expl", "topic"⟩))).showExplanationViewer = false ∧
    (pollEventStep startedPollState
      (.response jsonUrlRespEx (.ok ⟨"expl", "topic"⟩))).showVideoPlayer = false ∧
    (pollEventStep startedPollState
      (.response jsonUrlRespEx (.ok ⟨"expl", "topic"⟩))).isGenerating = false ∧
    (pollEventStep startedPollState
      (.response jsonUrlRespEx (.ok ⟨"expl", "topic"⟩))).pendingPoll = none := by
  decide

/-- `pollGenerationStatus` never changes the ghost check counter. -/
theorem pollStep_checksIssued (st : PollState) (r : StatusResponse)
    (ex : Except Unit ExplanationData) :
    (pollStep st r ex).checksIssued = st.checksIssued := by
  rcases ex with u | e <;>
    · unfold pollStep
      split
      · split
        · rfl
        · split
          · rfl
          · rfl
      · split
        · rfl
        · split
          · rfl
          · rfl

/-- The completed-with-`.mp4` branch of `pollGenerationStatus`. -/
theorem pollStep_completed_mp4 (st : PollState) (r : StatusResponse)
    (ex : Except Unit ExplanationData) (hc : completedCond r = true)
    (hm : mp4Cond r = true) :
    pollStep st r ex =
      { st with generationProgress := jsOrNat r.progress 0,
                generationMessage := jsOrStr r.message "Processing...",
                isGenerating := false,
                currentVideoUrl := "http://localhost:5000" ++ pathPartOf r,
                currentVideoTitle := jsSubstring50 st.selectedText,
                showVideoPlayer := true,
                selectedText := "" } := by
  simp [pollStep, hc, hm]

/-- The completed-with-`.json`-`video_path` branch, explanation fetch ok. -/
theorem pollStep_completed_json_ok (st : PollState) (r : StatusResponse)
    (e : ExplanationData) (hc : completedCond r = true)
    (hm : mp4Cond r = false) (hj : jsonCond r = true) :
    pollStep st r (.ok e) =
      { st with generationProgress := jsOrNat r.progress 0,
                generationMessage := jsOrStr r.message "Processing...",
                isGenerating := false,
                currentExplanation := e.explanation,
                currentExplanationTitle := e.topic,
                showExplanationViewer := true,
                selectedText := "" } := by
  simp [pollStep, hc, hm, hj]

/-- The completed-with-`.json`-`video_path` branch, explanation fetch failed. -/
theorem pollStep_completed_json_err (st : PollState) (r : StatusResponse)
    (hc : completedCond r = true) (hm : mp4Cond r = false) (hj : jsonCond r = true) :
    pollStep st r (.error ()) =
      { st with generationProgress := jsOrNat r.progress 0,
                generationMessage := jsOrStr r.message "Processing...",
                isGenerating := false,
                alerts := st.alerts ++ ["Error loading explanation"],
                selectedText := "" } := by
  simp [pollStep, hc, hm, hj]

/-- The completed branch when the artifact is neither an `.mp4` video nor
a `.json` `video_path`: nothing is displayed. -/
theorem pollStep_completed_other (st : PollState) (r : StatusResponse)
    (ex : Except Unit ExplanationData) (hc : completedCond r = true)
    (hm : mp4Cond r = false) (hj : jsonCond r = false) :
    pollStep st r ex =
      { st with generationProgress := jsOrNat r.progress 0,
                generationMessage := jsOrStr r.message "Processing...",
                isGenerating := false,
                selectedText := "" } := by
  simp [pollStep, hc, hm, hj]

/-- The `failed` branch of `pollGenerationStatus`. -/
theorem pollStep_failed (st : PollState) (r : StatusResponse)
    (ex : Except Unit ExplanationData) (hf : r.status = "failed") :
    pollStep st r ex =
      { st with generationProgress := jsOrNat r.progress 0,
                generationMessage := jsOrStr r.message "Processing...",
                isGenerating := false,
                alerts := st.alerts ++ ["Generation failed: " ++ jsUndef r.message] } := by
  have hc : completedCond r = false := by simp [completedCond, hf]
  simp [pollStep, hc, hf]

/-- The `generating` branch of `pollGenerationStatus`: reschedule after
2000 ms. -/
theorem pollStep_generating (st : PollState) (r : StatusResponse)
    (ex : Except Unit ExplanationData) (hg : r.status = "generating") :
    pollStep st r ex =
      { st with generationProgress := jsOrNat r.progress 0,
                generationMessage := jsOrStr r.message "Processing...",
                pendingPoll := some 2000 } := by
  have hc : completedCond r = false := by simp [completedCond, hg]
  simp [pollStep, hc, hg]

/-- The fallback branch of `pollGenerationStatus` for any other status. -/
theorem pollStep_unknown (st : PollState) (r : StatusResponse)
    (ex : Except Unit ExplanationData) (hc : completedCond r = false)
    (hf : r.status ≠ "failed") (hg : r.status ≠ "generating") :
    pollStep st r ex =
      { st with generationProgress := jsOrNat r.progress 0,
                generationMessage := jsOrStr r.message "Processing...",
                isGenerating := false,
                alerts := st.alerts ++ ["Unknown error occurred during generation"] } := by
  simp [pollStep, hc, hf, hg]

/-- C2 amended: on each consumed poll response exactly one branch runs.
`completed` with an artifact present stops polling and clears
`isGenerating`, but displays the artifact only as follows: the video
player when `video_url` or `video_path` ends in `.mp4`; the explanation
viewer when `video_path` ends in `.json` and the explanation fetch
succeeds (a failed fetch raises an alert instead); any other completed
artifact displays nothing.  `failed` stops polling, clears
`isGenerating` and reports the failure; `generating` schedules exactly
one further poll after 2000 ms; any other status (including `completed`
without an artifact) stops polling, clears `isGenerating` and reports an
unknown error. -/
theorem poll_response_cases (st : PollState) (r : StatusResponse)
    (ex : Except Unit ExplanationData) (d : Nat) (hp : st.pendingPoll = some d) :
    (pollEventStep st (.response r ex)).checksIssued = st.checksIssued + 1 ∧
    (completedCond r = true →
       (pollEventStep st (.response r ex)).pendingPoll = none ∧
       (pollEventStep st (.response r ex)).isGenerating = false ∧
       (mp4Cond r = true →
         (pollEventStep st (.response r ex)).showVideoPlayer = true) ∧
       (mp4Cond r = false → jsonCond r = true →
         (∀ e, ex = .ok e →
           (pollEventStep st (.response r ex)).showExplanationViewer = true) ∧
         (ex = .error () →
           (pollEventStep st (.response r ex)).showExplanationViewer =
             st.showExplanationViewer ∧
           (pollEventStep st (.response r ex)).alerts =
             st.alerts ++ ["Error loading explanation"])) ∧
       (mp4Cond r = false → jsonCond r = false →
         (pollEventStep st (.response r ex)).showVideoPlayer = st.showVideoPlayer ∧
         (pollEventStep st (.response r ex)).showExplanationViewer =
           st.showExplanationViewer)) ∧
    (r.status = "failed" →
       (pollEventStep st (.response r ex)).pendingPoll = none ∧
       (pollEventStep st (.response r ex)).isGenerating = false ∧
       (pollEventStep st (.response r ex)).alerts =
         st.alerts ++ ["Generation failed: " ++ jsUndef r.message]) ∧
    (r.status = "generating" →
       (pollEventStep st (.response r ex)).pendingPoll = some 2000 ∧
       (pollEventStep st (.response r ex)).isGenerating = st.isGenerating ∧
       (pollEventStep st (.response r ex)).showVideoPlayer = st.showVideoPlayer ∧
       (pollEventStep st (.response r ex)).showExplanationViewer =
         st.showExplanationViewer) ∧
    (completedCond r = false → r.status ≠ "failed" → r.status ≠ "generating" →
       (pollEventStep st (.response r ex)).pendingPoll = none ∧
       (pollEventStep st (.response r ex)).isGenerating = false ∧
       (pollEventStep st (.response r ex)).alerts =
         st.alerts ++ ["Unknown error occurred during generation"]) := by
  have hstep : pollEventStep st (.response r ex) =
      pollStep { st with pendingPoll := none, checksIssued := st.checksIssued + 1 }
        r ex := by
    rw [pollEventStep, hp]
  refine ⟨?_, ?_, ?_, ?_, ?_⟩
  · rw [hstep, pollStep_checksIssued]
  · intro hc
    by_cases hm : mp4Cond r = true
    · rw [hstep, pollStep_completed_mp4 _ r ex hc hm]
      refine ⟨rfl, rfl, fun _ => rfl, ?_, ?_⟩
      · intro habs
        rw [hm] at habs
        exact absurd habs (by simp)
      · intro habs
        rw [hm] at habs
        exact absurd habs (by simp)
    · have hm' : mp4Cond r = false := Bool.eq_false_iff.mpr hm
      by_cases hj : jsonCond r = true
      · refine ⟨?_, ?_, ?_, ?_, ?_⟩
        · rcases ex with u | e
          · cases u
            rw [hstep, pollStep_completed_json_err _ r hc hm' hj]
          · rw [hstep, pollStep_completed_json_ok _ r e hc hm' hj]
        · rcases ex with u | e
          · cases u
            rw [hstep, pollStep_completed_json_err _ r hc hm' hj]
          · rw [hstep, pollStep_completed_json_ok _ r e hc hm' hj]
        · intro habs
          rw [habs] at hm
          exact absurd rfl hm
        · intro _ _
          constructor
          · rintro e rfl
            rw [hstep, pollStep_completed_json_ok _ r e hc hm' hj]
          · rintro rfl
            rw [hstep, pollStep_completed_json_err _ r hc hm' hj]
            exact ⟨rfl, rfl⟩
        · intro _ habs
          rw [hj] at habs
          exact absurd habs (by simp)
      · have hj' : jsonCond r = false := Bool.eq_false_iff.mpr hj
        rw [hstep, pollStep_completed_other _ r ex hc hm' hj']
        refine ⟨rfl, rfl, ?_, ?_, fun _ _ => ⟨rfl, rfl⟩⟩
        · intro habs
          rw [habs] at hm
          exact absurd rfl hm
        · intro _ habs
          rw [habs] at hj
          exact absurd rfl hj
  · intro hf
    rw [hstep, pollStep_failed _ r ex hf]
    exact ⟨rfl, rfl, rfl⟩
  · intro hg
    rw [hstep, pollStep_generating _ r ex hg]
    exact ⟨rfl, rfl, rfl, rfl⟩
  · intro hc hf hg
    rw [hstep, pollStep_unknown _ r ex hc hf hg]
    exact ⟨rfl, rfl, rfl⟩

/-- Witness for C2 on a `generating` response consuming the pending poll. -/
theorem poll_response_cases_witness :
    (pollEventStep startedPollState (.response genRespEx (.error ()))).checksIssued =
      startedPollState.checksIssued + 1 ∧
    (pollEventStep startedPollState (.response genRespEx (.error ()))).pendingPoll =
      some 2000 := by
  have h := poll_response_cases startedPollState genRespEx (.error ()) 0 rfl
  exact ⟨h.1, (h.2.2.2.1 rfl).1⟩

/-! ### Injectivity of decimal rendering

`performOcrExtraction` builds ids `` `ocr-${Date.now()}-${index}` ``;
distinctness of the ids within one batch reduces to injectivity of
`Nat.repr`, proved here via the `Nat.digits` round-trip. -/

/-- Two strings with the same character data are equal. -/
theorem str_data_inj {s t : String} (h : s.data = t.data) : s = t := by
  cases s
  cases t
  exact congrArg String.mk h

/-- `Nat.digitChar` is injective below 10. -/
theorem digitChar_injOn10 : ∀ a : Nat, a < 10 → ∀ b : Nat, b < 10 →
    Nat.digitChar a = Nat.digitChar b → a = b := by decide

/-- Mapping `Nat.digitChar` over digit lists is injective. -/
theorem map_digitChar_inj : ∀ l1 l2 : List Nat, (∀ x ∈ l1, x < 10) →
    (∀ x ∈ l2, x < 10) → l1.map Nat.digitChar = l2.map Nat.digitChar → l1 = l2 := by
  intro l1
  induction l1 with
  | nil =>
    intro l2 _ _ h
    cases l2 with
    | nil => rfl
    | cons b t => simp at h
  | cons a t ih =>
    intro l2 h1 h2 h
    cases l2 with
    | nil => simp at h
    | cons b t2 =>
      simp only [List.map_cons, List.cons.injEq] at h
      have hab : a = b := digitChar_injOn10 a (h1 a (by simp)) b (h2 b (by simp)) h.1
      subst hab
      rw [ih t2 (fun x hx => h1 x (by simp [hx])) (fun x hx => h2 x (by simp [hx])) h.2]

/-- `Nat.toDigitsCore` with enough fuel produces the reversed
`digitChar`-image of `Nat.digits`. -/
theorem toDigitsCore_eq_digits :
    ∀ (f n : Nat) (acc : List Char), n < 10 ^ f → 0 < n →
      Nat.toDigitsCore 10 f n acc =
        ((Nat.digits 10 n).map Nat.digitChar).reverse ++ acc := by
  intro f
  induction f with
  | zero =>
    intro n acc h h0
    simp only [pow_zero] at h
    omega
  | succ f ih =>
    intro n acc h h0
    rw [show Nat.toDigitsCore 10 (f + 1) n acc =
        (if n / 10 = 0 then Nat.digitChar (n % 10) :: acc
         else Nat.toDigitsCore 10 f (n / 10) (Nat.digitChar (n % 10) :: acc))
      from rfl]
    by_cases hdiv : n / 10 = 0
    · rw [if_pos hdiv, Nat.digits_def' (by norm_num : (1 : Nat) < 10) h0, hdiv,
        Nat.digits_zero]
      simp
    · rw [if_neg hdiv]
      have hlt : n / 10 < 10 ^ f := by
        rw [Nat.div_lt_iff_lt_mul (by norm_num : (0 : Nat) < 10)]
        rw [pow_succ] at h
        exact h
      have hpos : 0 < n / 10 := Nat.pos_of_ne_zero hdiv
      rw [ih (n / 10) (Nat.digitChar (n % 10) :: acc) hlt hpos,
        Nat.digits_def' (by norm_num : (1 : Nat) < 10) h0]
      simp

/-- `Nat.repr` of a positive number renders its decimal digits. -/
theorem repr_eq_digits (n : Nat) (h0 : 0 < n) :
    Nat.repr n = (((Nat.digits 10 n).map Nat.digitChar).reverse).asString := by
  have hn : n < 10 ^ (n + 1) :=
    lt_of_lt_of_le (Nat.lt_pow_self (by norm_num) n)
      (Nat.pow_le_pow_right (by norm_num) (Nat.le_succ n))
  show (Nat.toDigitsCore 10 (n + 1) n []).asString = _
  rw [toDigitsCore_eq_digits (n + 1) n [] hn h0, List.append_nil]

/-- `Nat.repr` is injective. -/
theorem nat_repr_injective : Function.Injective Nat.repr := by
  intro m n h
  have single_zero : ∀ k : Nat, 0 < k →
      Nat.repr k ≠ "0" := by
    intro k hk habs
    have hd : ((Nat.digits 10 k).map Nat.digitChar).reverse = ['0'] := by
      have := congrArg String.data (repr_eq_digits k hk)
      rw [habs] at this
      exact this.symm
    have hmap : (Nat.digits 10 k).map Nat.digitChar = ['0'] := by
      have := congrArg List.reverse hd
      simpa using this
    have hne : Nat.digits 10 k ≠ [] := Nat.digits_ne_nil_iff_ne_zero.mpr (by omega)
    obtain ⟨d, rest, hdk⟩ : ∃ d rest, Nat.digits 10 k = d :: rest := by
      cases hdig : Nat.digits 10 k with
      | nil => exact absurd hdig hne
      | cons d rest => exact ⟨d, rest, rfl⟩
    rw [hdk] at hmap
    simp only [List.map_cons, List.cons.injEq] at hmap
    have hrest : rest = [] := by
      cases rest with
      | nil => rfl
      | cons x xs => simp at hmap
    subst hrest
    have hd10 : d < 10 :=
      Nat.digits_lt_base (by norm_num) (by rw [hdk]; exact List.mem_singleton_self d)
    have hd0 : d = 0 :=
      digitChar_injOn10 d hd10 0 (by norm_num) (by simpa using hmap.1)
    have hkd : k = d := by
      have hofd := (Nat.ofDigits_digits 10 k).symm
      rw [hdk] at hofd
      simpa [Nat.ofDigits_cons, Nat.ofDigits_nil] using hofd
    omega
  rcases Nat.eq_zero_or_pos m with hm | hm <;> rcases Nat.eq_zero_or_pos n with hn | hn
  · omega
  · subst hm
    have r0 : Nat.repr 0 = "0" := rfl
    exact absurd (h.symm.trans r0) (single_zero n hn)
  · subst hn
    have r0 : Nat.repr 0 = "0" := rfl
    exact absurd (h.trans r0) (single_zero m hm)
  · have h1 := repr_eq_digits m hm
    have h2 := repr_eq_digits n hn
    rw [h1, h2] at h
    have hd : ((Nat.digits 10 m).map Nat.digitChar).reverse =
        ((Nat.digits 10 n).map Nat.digitChar).reverse := congrArg String.data h
    have hmap := List.reverse_injective hd
    have hdig := map_digitChar_inj _ _
      (fun x hx => Nat.digits_lt_base (by norm_num) hx)
      (fun x hx => Nat.digits_lt_base (by norm_num) hx) hmap
    calc m = Nat.ofDigits 10 (Nat.digits 10 m) := (Nat.ofDigits_digits 10 m).symm
      _ = Nat.ofDigits 10 (Nat.digits 10 n) := by rw [hdig]
      _ = n := Nat.ofDigits_digits 10 n

/-- The OCR batch ids are injective in the index. -/
theorem ocrId_injective (now : Nat) : Function.Injective (ocrId now) := by
  intro i j h
  have hd := congrArg String.data h
  simp only [ocrId, String.data_append] at hd
  have hrepr : (Nat.repr i).data = (Nat.repr j).data :=
    List.append_cancel_left hd
  exact nat_repr_injective (str_data_inj hrepr)

/-! ### OCR extraction branches (C7, C8) -/

/-- The thrown-exception branch of `performOcrExtraction`. -/
theorem ocr_err_branch (now : Nat) (timeStr : String) (cr : Option Pt)
    (st : OcrState) (sd : SelectionData) (lvl msg : String)
    (himg : optTruthy sd.imageData = true) :
    performOcrExtraction now timeStr cr st sd lvl (.error msg) =
      { st with ocrMode := false, ocrLoading := false,
                error := some ⟨"OCR Processing Error",
                  [jsOrStr (some msg) "Failed to communicate with OCR service",
                   "Check that the backend is running",
                   "Try again with a different selection"]⟩ } := by
  simp [performOcrExtraction, himg]

/-- The `success: false` branch of `performOcrExtraction`. -/
theorem ocr_fail_branch (now : Nat) (timeStr : String) (cr : Option Pt)
    (st : OcrState) (sd : SelectionData) (lvl : String) (r : OcrResponse)
    (himg : optTruthy sd.imageData = true) (hs : r.success = false) :
    performOcrExtraction now timeStr cr st sd lvl (.ok r) =
      { st with ocrMode := false, ocrLoading := false,
                error := some ⟨"OCR Extraction Failed",
                  [jsOrStr r.error "Unknown error occurred",
                   "Try selecting a clearer area",
                   "Ensure the image contains mathematical content"]⟩ } := by
  simp [performOcrExtraction, himg, hs]

/-- The empty-result branch of `performOcrExtraction`. -/
theorem ocr_empty_branch (now : Nat) (timeStr : String) (cr : Option Pt)
    (st : OcrState) (sd : SelectionData) (lvl : String) (r : OcrResponse)
    (himg : optTruthy sd.imageData = true) (hs : r.success = true)
    (hF : hasFormulas r = false) (hL : hasLatex r = false) :
    performOcrExtraction now timeStr cr st sd lvl (.ok r) =
      { st with ocrMode := false, ocrLoading := false,
                error := some ⟨"No Mathematical Content Detected",
                  ["The selected area may not contain clear mathematical notation",
                   "Try selecting a different area with equations or formulas",
                   "Ensure the image is not too blurry or small"]⟩ } := by
  simp [performOcrExtraction, himg, hs, hF, hL]

/-- The success branch of `performOcrExtraction`. -/
theorem ocr_success_branch (now : Nat) (timeStr : String) (cr : Option Pt)
    (st : OcrState) (sd : SelectionData) (lvl : String) (r : OcrResponse)
    (himg : optTruthy sd.imageData = true) (hs : r.success = true)
    (hfa : formulasArrayOf r ≠ []) :
    performOcrExtraction now timeStr cr st sd lvl (.ok r) =
      { st with ocrMode := false, ocrLoading := false,
                ocrResults := st.ocrResults ++
                  newOcrResultsOf now cr sd (formulasArrayOf r),
                latestOcrResult := some ⟨(formulasArrayOf r).headD (.fstr ""),
                  timeStr, r.confidence, r.raw_result⟩,
                showOcrPanel := true,
                ocrPanelMinimized := false } := by
  have hcond : (!hasFormulas r && !hasLatex r) = false := by
    cases hF : hasFormulas r <;> cases hL : hasLatex r <;> simp
    exact absurd (by simp [formulasArrayOf, hF, hL]) hfa
  have hpos : 0 < (formulasArrayOf r).length := List.length_pos.mpr hfa
  simp [performOcrExtraction, himg, hs, hcond, hpos]

/-- C7: when OCR extraction fails — the backend reports `success: false`,
or it lists no formulas and no non-empty latex, or the request throws —
`performOcrExtraction` leaves `ocrResults` unchanged and sets an error
with a message and suggestions; and in every outcome `ocrLoading` is
false when the operation finishes. -/
theorem ocr_failure_handling (now : Nat) (timeStr : String) (cr : Option Pt)
    (st : OcrState) (sd : SelectionData) (lvl : String)
    (res : Except String OcrResponse)
    (himg : optTruthy sd.imageData = true) :
    (performOcrExtraction now timeStr cr st sd lvl res).ocrLoading = false ∧
    (ocrFailed res = true →
      (performOcrExtraction now timeStr cr st sd lvl res).ocrResults =
        st.ocrResults ∧
      ∃ e : ErrInfo,
        (performOcrExtraction now timeStr cr st sd lvl res).error = some e ∧
        e.message ≠ "" ∧ e.suggestions ≠ []) := by
  rcases res with msg | r
  · rw [ocr_err_branch now timeStr cr st sd lvl msg himg]
    exact ⟨rfl, fun _ => ⟨rfl, _, rfl, by simp, by simp⟩⟩
  · cases hs : r.success
    · rw [ocr_fail_branch now timeStr cr st sd lvl r himg hs]
      exact ⟨rfl, fun _ => ⟨rfl, _, rfl, by simp, by simp⟩⟩
    · cases hF : hasFormulas r <;> cases hL : hasLatex r
      · rw [ocr_empty_branch now timeStr cr st sd lvl r himg hs hF hL]
        exact ⟨rfl, fun _ => ⟨rfl, _, rfl, by simp, by simp⟩⟩
      all_goals {
        have hfa : formulasArrayOf r ≠ [] := by
          simp only [formulasArrayOf, hF, hL]
          first
            | (simp [hasFormulas] at hF
               cases hfor : r.formulas with
                 | none => rw [hfor] at hF; simp at hF
                 | some fs =>
                   rw [hfor] at hF
                   simp only [Option.getD_some, if_pos]
                   intro habs
                   rw [habs] at hF
                   simp at hF)
            | simp
        rw [ocr_success_branch now timeStr cr st sd lvl r himg hs hfa]
        refine ⟨rfl, fun hfail => ?_⟩
        rw [ocrFailed, hs, hF, hL] at hfail
        simp at hfail }

/-- The ids of one OCR result batch are pairwise distinct. -/
theorem newOcrResults_ids_nodup (now : Nat) (cr : Option Pt) (sd : SelectionData)
    (fa : List FormulaV) :
    ((newOcrResultsOf now cr sd fa).map (·.id)).Nodup := by
  have h1 : (newOcrResultsOf now cr sd fa).map (·.id) =
      (fa.enum.map Prod.fst).map (ocrId now) := by
    simp only [newOcrResultsOf, List.map_map]
    rfl
  rw [h1]
  exact (List.nodup_enum_map_fst fa).map (ocrId_injective now)

/-- C8: when OCR extraction succeeds with `n ≥ 1` formulas (the `formulas`
array, or the single `latex` wrapped in an array), exactly `n` new result
objects with pairwise-distinct ids are appended to `ocrResults`, all
previously existing results are preserved, and the OCR results panel is
shown un-minimized displaying the first formula. -/
theorem ocr_success_appends (now : Nat) (timeStr : String) (cr : Option Pt)
    (st : OcrState) (sd : SelectionData) (lvl : String) (r : OcrResponse)
    (himg : optTruthy sd.imageData = true) (hs : r.success = true)
    (hfa : formulasArrayOf r ≠ []) :
    (performOcrExtraction now timeStr cr st sd lvl (.ok r)).ocrResults =
      st.ocrResults ++ newOcrResultsOf now cr sd (formulasArrayOf r) ∧
    (newOcrResultsOf now cr sd (formulasArrayOf r)).length =
      (formulasArrayOf r).length ∧
    ((newOcrResultsOf now cr sd (formulasArrayOf r)).map (·.id)).Nodup ∧
    (performOcrExtraction now timeStr cr st sd lvl (.ok r)).showOcrPanel = true ∧
    (performOcrExtraction now timeStr cr st sd lvl (.ok r)).ocrPanelMinimized =
      false ∧
    (performOcrExtraction now timeStr cr st sd lvl (.ok r)).latestOcrResult =
      some ⟨(formulasArrayOf r).headD (.fstr ""), timeStr, r.confidence,
        r.raw_result⟩ := by
  rw [ocr_success_branch now timeStr cr st sd lvl r himg hs hfa]
  refine ⟨rfl, ?_, newOcrResults_ids_nodup now cr sd _, rfl, rfl, rfl⟩
  simp [newOcrResultsOf]

/-- Witness for C7 at a concrete `success: false` response. -/
theorem ocr_failure_handling_witness :
    (performOcrExtraction 1 "10:00:00" none initialOcrState sdEx "moderate"
      (.ok ocrFailRespEx)).ocrLoading = false ∧
    (performOcrExtraction 1 "10:00:00" none initialOcrState sdEx "moderate"
      (.ok ocrFailRespEx)).ocrResults = initialOcrState.ocrResults ∧
    ∃ e : ErrInfo,
      (performOcrExtraction 1 "10:00:00" none initialOcrState sdEx "moderate"
        (.ok ocrFailRespEx)).error = some e ∧
      e.message ≠ "" ∧ e.suggestions ≠ [] := by
  have h := ocr_failure_handling 1 "10:00:00" none initialOcrState sdEx "moderate"
    (.ok ocrFailRespEx) (by decide)
  have h2 := h.2 (by decide)
  exact ⟨h.1, h2.1, h2.2⟩

/-- Witness for C8 at a concrete two-formula response. -/
theorem ocr_success_appends_witness :
    (performOcrExtraction 1 "10:00:00" none initialOcrState sdEx "moderate"
      (.ok ocrOkRespEx)).ocrResults =
      initialOcrState.ocrResults ++
        newOcrResultsOf 1 none sdEx (formulasArrayOf ocrOkRespEx) ∧
    ((newOcrResultsOf 1 none sdEx (formulasArrayOf ocrOkRespEx)).map (·.id)).Nodup ∧
    (performOcrExtraction 1 "10:00:00" none initialOcrState sdEx "moderate"
      (.ok ocrOkRespEx)).showOcrPanel = true ∧
    (performOcrExtraction 1 "10:00:00" none initialOcrState sdEx "moderate"
      (.ok ocrOkRespEx)).ocrPanelMinimized = false := by
  have h := ocr_success_appends 1 "10:00:00" none initialOcrState sdEx "moderate"
    ocrOkRespEx (by decide) (by decide) (by decide)
  exact ⟨h.1, h.2.2.1, h.2.2.2.1, h.2.2.2.2.1⟩

/-! ### No persistent storage (C9) -/

/-- C9: no modelled operation of the viewer or the API client writes to
persistent storage — every transition leaves the `PersistentStore`
component unchanged — and the mount state of every component is a fixed
constant independent of whatever persistent data exists, so a fresh
session always starts from the initial state. -/
theorem no_persistent_writes :
    (∀ (st : AppState) (e : AppEvent), (appStep st e).persistent = st.persistent) ∧
    (∀ p q : PersistentStore,
       (initialAppState p).load = (initialAppState q).load ∧
       (initialAppState p).poll = (initialAppState q).poll ∧
       (initialAppState p).ocr = (initialAppState q).ocr ∧
       (initialAppState p).scale = (initialAppState q).scale ∧
       (initialAppState p).numPages = (initialAppState q).numPages) := by
  constructor
  · intro st e
    cases e <;> rfl
  · intro p q
    exact ⟨rfl, rfl, rfl, rfl, rfl⟩

end MathVizAI
